import Mathlib

/-!
Shallow embedding of `src/server.js` (movie-review service on a wide-column
store). The file contains two complete server variants: the first uses
keyspace `film_reviews_db` with tables `films(id, name)` and
`movie_reviews(film_id, created_at, review_uuid, username, score)`; the
second uses keyspace `cinema_ratings` with tables `movies(id, title)` and
`reviews_by_movie(movie_id, timestamp, review_id, reviewer, rating)`.
Both define four HTTP handlers and an idempotent schema bootstrap.
-/

namespace MovieReview

/-- JavaScript primitive values as they can appear after JSON body parsing
and object destructuring: an absent field destructures to `undefined`;
JSON itself supplies `null`, booleans, numbers and strings. JSON numbers
are finite decimals, modelled as rationals. -/
inductive JSVal where
  | undefined
  | null
  | bool (b : Bool)
  | num (q : ℚ)
  | str (s : String)
deriving DecidableEq

/-- JavaScript truthiness, as tested by `if (!x)`: `undefined`, `null`,
`false`, `0` and the empty string are falsy. -/
def truthy : JSVal → Bool
  | .undefined => false
  | .null => false
  | .bool b => b
  | .num q => decide (q ≠ 0)
  | .str s => decide (s ≠ "")

/-- Numeric value of a decimal digit character, `none` otherwise. -/
def digitVal (c : Char) : Option Nat :=
  if c.isDigit then some (c.toNat - 48) else none

/-- Natural number denoted by a list of decimal digit characters. -/
def digitsToNat (l : List Char) : Nat :=
  l.foldl (fun a c => a * 10 + (c.toNat - 48)) 0

/-- ECMAScript `parseInt(s, 10)` on a string: skip leading whitespace,
read an optional sign, then the longest prefix of decimal digits; the
result is NaN (here `none`) when that prefix is empty. -/
def parseIntStr (s : String) : Option Int :=
  let cs := s.data.dropWhile Char.isWhitespace
  let signRest : Int × List Char :=
    match cs with
    | '-' :: t => (-1, t)
    | '+' :: t => (1, t)
    | t => (1, t)
  let digs := signRest.2.takeWhile Char.isDigit
  if digs.isEmpty then none
  else some (signRest.1 * (digitsToNat digs : Int))

/-- Truncation of a rational toward zero, matching how `parseInt` reads
the integer part of a number printed in plain decimal form. -/
def ratTrunc (q : ℚ) : Int :=
  q.num.tdiv q.den

/-- ECMAScript `parseInt(v, 10)`: the argument is converted to a string
and parsed. Non-number primitives stringify to `"undefined"`, `"null"`,
`"true"`, `"false"` or the string itself and go through the string
parser. A number in plain decimal form re-parses to its truncation
toward zero, which the number case takes directly. -/
def parseIntJS : JSVal → Option Int
  | .str s => parseIntStr s
  | .num q => some (ratTrunc q)
  | .undefined => parseIntStr "undefined"
  | .null => parseIntStr "null"
  | .bool b => parseIntStr (if b then "true" else "false")

/-- A parsed JSON request body: field names with their values. -/
abbrev Body := List (String × JSVal)

/-- Object destructuring `const { k } = body`: the field's value, or
`undefined` when the field is absent. -/
def Body.get (b : Body) (k : String) : JSVal :=
  (b.lookup k).getD .undefined

/-- A 128-bit identifier, as produced by the driver's `Uuid.random()`. -/
abbrev UUID := Fin (2 ^ 128)

instance : NeZero (2 ^ 128) := ⟨by norm_num⟩

/-! ## Variant 1: keyspace `film_reviews_db` -/

/-- A row of the `films` table (`id uuid PRIMARY KEY, name text`).
The `name` column holds whatever value the handler bound. -/
structure FilmRow where
  id : UUID
  name : JSVal
deriving DecidableEq

/-- A row of the `movie_reviews` table:
`PRIMARY KEY (film_id, created_at, review_uuid)` with
`CLUSTERING ORDER BY (created_at DESC)`. `created_at` is a millisecond
timestamp; `score` is the bound `parseInt` result (`none` = NaN). -/
structure ReviewRow where
  film_id : UUID
  created_at : Nat
  review_uuid : UUID
  username : JSVal
  score : Option Int
deriving DecidableEq

/-- Storage order of `movie_reviews` rows: partitions by `film_id`, and
within a partition the clustering order `created_at DESC, review_uuid ASC`. -/
def clusterLE (a b : ReviewRow) : Prop :=
  a.film_id.val < b.film_id.val ∨
    (a.film_id.val = b.film_id.val ∧
      (b.created_at < a.created_at ∨
        (a.created_at = b.created_at ∧ a.review_uuid.val ≤ b.review_uuid.val)))

instance : DecidableRel clusterLE := fun a b => by
  unfold clusterLE; infer_instance

instance : IsTotal ReviewRow clusterLE :=
  ⟨by intro a b; unfold clusterLE; omega⟩

instance : IsTrans ReviewRow clusterLE :=
  ⟨by intro a b c; unfold clusterLE; omega⟩

/-- Whether two `movie_reviews` rows have the same primary key
`(film_id, created_at, review_uuid)`. -/
def sameKey (a b : ReviewRow) : Bool :=
  a.film_id == b.film_id && a.created_at == b.created_at &&
    a.review_uuid == b.review_uuid

/-- Effect of `INSERT INTO movie_reviews ...`: an upsert — a row with the
same primary key is replaced, otherwise the row enters the table at its
clustering position. -/
def insertReview (r : ReviewRow) (t : List ReviewRow) : List ReviewRow :=
  List.orderedInsert clusterLE r (t.filter fun x => !(sameKey x r))

/-- Effect of `INSERT INTO films ...`: an upsert on the `id` key. -/
def insertFilm (f : FilmRow) (t : List FilmRow) : List FilmRow :=
  (t.filter fun x => !(x.id == f.id)) ++ [f]

/-- Database state touched by variant 1: the two tables of
`film_reviews_db`. -/
structure DBState where
  films : List FilmRow
  movie_reviews : List ReviewRow
deriving DecidableEq

/-- Response of `POST /api/films`. -/
inductive FilmPostOut where
  | validationError (error : String)
  | created (id : UUID) (name : JSVal)
deriving DecidableEq

/-- HTTP status of a `POST /api/films` response. -/
def FilmPostOut.status : FilmPostOut → Nat
  | .validationError _ => 400
  | .created _ _ => 201

/-- Response of `POST /api/films/:film_id/reviews`. -/
inductive ReviewPostOut where
  | validationError (error : String)
  | created (film_id : UUID) (created_at : Nat) (review_uuid : UUID)
      (username : JSVal) (score : Option Int)
deriving DecidableEq

/-- HTTP status of a `POST /api/films/:film_id/reviews` response. -/
def ReviewPostOut.status : ReviewPostOut → Nat
  | .validationError _ => 400
  | .created _ _ _ _ _ => 201

/-- Handler of `GET /api/films`: `SELECT id, name FROM films`. -/
def getFilms (st : DBState) : List FilmRow :=
  st.films

/-- Handler of `POST /api/films`: destructures `name` from the body,
rejects a falsy value with 400, otherwise generates an id (passed in as
the oracle `freshId` for `Uuid.random()`), inserts `(id, name)` and
returns 201 with the pair. -/
def postFilms (body : Body) (freshId : UUID) (st : DBState) :
    FilmPostOut × DBState :=
  let name := body.get "name"
  if ¬ truthy name then
    (.validationError "O campo \"name\" é obrigatório", st)
  else
    (.created freshId name,
      { st with films := insertFilm ⟨freshId, name⟩ st.films })

/-- Row shape returned by `GET /api/films/:film_id/reviews`:
`SELECT film_id, username, score, created_at`. -/
structure ReviewOut where
  film_id : UUID
  username : JSVal
  score : Option Int
  created_at : Nat
deriving DecidableEq

/-- Handler of `GET /api/films/:film_id/reviews`: range-scans the
partition of `film_id`, returning its rows in stored clustering order,
projected to the selected columns. -/
def getFilmReviews (film_id : UUID) (st : DBState) : List ReviewOut :=
  (st.movie_reviews.filter fun r => r.film_id == film_id).map
    fun r => ⟨r.film_id, r.username, r.score, r.created_at⟩

/-- Handler of `POST /api/films/:film_id/reviews`: destructures
`username` and `score`, rejects with 400 when `!username || score ===
undefined`, otherwise assigns `created_at = new Date()` (oracle `now`),
`review_uuid = Uuid.random()` (oracle `freshId`), computes
`parseInt(score, 10)`, inserts the row and returns it with 201. -/
def postFilmReviews (film_id : UUID) (body : Body) (now : Nat)
    (freshId : UUID) (st : DBState) : ReviewPostOut × DBState :=
  let username := body.get "username"
  let score := body.get "score"
  if ¬ truthy username ∨ score = JSVal.undefined then
    (.validationError "Campos \"username\" e \"score\" são obrigatórios", st)
  else
    let scoreValue := parseIntJS score
    let row : ReviewRow := ⟨film_id, now, freshId, username, scoreValue⟩
    (.created film_id now freshId username scoreValue,
      { st with movie_reviews := insertReview row st.movie_reviews })

/-! ## Schema bootstrap (`setupDatabase`) -/

/-- Shape of a CQL table: columns with their types, partition key,
clustering columns, and clustering order (`true` = DESC). -/
structure TableSchema where
  columns : List (String × String)
  partitionKey : List String
  clusteringColumns : List String
  clusteringOrder : List (String × Bool)
deriving DecidableEq

/-- A keyspace: its replication settings and its tables by name. -/
structure KeyspaceSchema where
  replicationClass : String
  replicationFactor : Nat
  tables : List (String × TableSchema)
deriving DecidableEq

/-- The cluster's schema: keyspaces by name. -/
structure DBSchema where
  keyspaces : List (String × KeyspaceSchema)
deriving DecidableEq

/-- A schema with no keyspaces. -/
def DBSchema.empty : DBSchema := ⟨[]⟩

/-- Effect of `CREATE KEYSPACE IF NOT EXISTS`: no-op when a keyspace of
that name exists, otherwise adds an empty keyspace with the given
replication settings. -/
def createKeyspaceIfNotExists (name cls : String) (rf : Nat)
    (s : DBSchema) : DBSchema :=
  if (s.keyspaces.lookup name).isSome then s
  else ⟨(name, ⟨cls, rf, []⟩) :: s.keyspaces⟩

/-- Effect of `CREATE TABLE IF NOT EXISTS` inside keyspace `ks`: no-op
on a keyspace that already has a table of that name, otherwise adds the
table to it. -/
def createTableIfNotExists (ks tname : String) (t : TableSchema)
    (s : DBSchema) : DBSchema :=
  ⟨s.keyspaces.map fun p =>
    if p.1 = ks then
      (p.1, if (p.2.tables.lookup tname).isSome then p.2
            else { p.2 with tables := (tname, t) :: p.2.tables })
    else p⟩

/-- Injected outcome of each engine call made during bootstrap: whether
the connection and each of the three DDL statements succeeds. -/
structure Engine where
  connectOk : Bool
  keyspaceDdlOk : Bool
  firstTableDdlOk : Bool
  secondTableDdlOk : Bool
deriving DecidableEq

/-- An engine in which every bootstrap call succeeds. -/
def Engine.allOk : Engine := ⟨true, true, true, true⟩

/-- Failure during schema bootstrap: connection failure, or failure of
the n-th DDL statement. -/
inductive InitError where
  | connectFailed
  | ddlFailed (step : Nat)
deriving DecidableEq

/-- Schema of the `films` table created by `setupDatabase`. -/
def filmsTable : TableSchema :=
  ⟨[("id", "uuid"), ("name", "text")], ["id"], [], []⟩

/-- Schema of the `movie_reviews` table created by `setupDatabase`. -/
def movieReviewsTable : TableSchema :=
  ⟨[("film_id", "uuid"), ("created_at", "timestamp"),
    ("review_uuid", "uuid"), ("username", "text"), ("score", "int")],
   ["film_id"], ["created_at", "review_uuid"], [("created_at", true)]⟩

/-- State transformation of a fully successful `setupDatabase` run:
create keyspace `film_reviews_db` if absent, then tables `films` and
`movie_reviews` if absent. -/
def setupPure (s : DBSchema) : DBSchema :=
  createTableIfNotExists "film_reviews_db" "movie_reviews" movieReviewsTable
    (createTableIfNotExists "film_reviews_db" "films" filmsTable
      (createKeyspaceIfNotExists "film_reviews_db" "SimpleStrategy" 1 s))

/-- The `setupDatabase` function of variant 1: connect, then run the
three `IF NOT EXISTS` DDL statements in order, stopping at the first
engine failure. -/
def setupDatabase (eng : Engine) (s : DBSchema) : Except InitError DBSchema :=
  if ¬ eng.connectOk then .error .connectFailed
  else if ¬ eng.keyspaceDdlOk then .error (.ddlFailed 1)
  else
    let s1 := createKeyspaceIfNotExists "film_reviews_db" "SimpleStrategy" 1 s
    if ¬ eng.firstTableDdlOk then .error (.ddlFailed 2)
    else
      let s2 := createTableIfNotExists "film_reviews_db" "films" filmsTable s1
      if ¬ eng.secondTableDdlOk then .error (.ddlFailed 3)
      else .ok (createTableIfNotExists "film_reviews_db" "movie_reviews"
        movieReviewsTable s2)

/-- Observable fate of the process after startup: serving requests over
a schema, or exited with a code. -/
inductive ProcOutcome where
  | serving (s : DBSchema)
  | exited (code : Nat)
deriving DecidableEq

/-- Startup sequence of variant 1: `setupDatabase().then(listen)`. The
`catch` inside `setupDatabase` calls `process.exit(1)` on any failure,
so the `then` continuation (serving) runs only on success. -/
def startProcess (eng : Engine) (s : DBSchema) : ProcOutcome :=
  match setupDatabase eng s with
  | .ok s1 => .serving s1
  | .error _ => .exited 1

/-! ## Variant 2: keyspace `cinema_ratings` (lines 165-329 of the source) -/

/-- A row of the `movies` table (`id uuid PRIMARY KEY, title text`). -/
structure MovieRow where
  id : UUID
  title : JSVal
deriving DecidableEq

/-- A row of the `reviews_by_movie` table:
`PRIMARY KEY (movie_id, timestamp, review_id)` with
`CLUSTERING ORDER BY (timestamp DESC)`. -/
structure RatingRow where
  movie_id : UUID
  timestamp : Nat
  review_id : UUID
  reviewer : JSVal
  rating : Option Int
deriving DecidableEq

/-- Storage order of `reviews_by_movie` rows: partitions by `movie_id`,
clustering order `timestamp DESC, review_id ASC`. -/
def ratingLE (a b : RatingRow) : Prop :=
  a.movie_id.val < b.movie_id.val ∨
    (a.movie_id.val = b.movie_id.val ∧
      (b.timestamp < a.timestamp ∨
        (a.timestamp = b.timestamp ∧ a.review_id.val ≤ b.review_id.val)))

instance : DecidableRel ratingLE := fun a b => by
  unfold ratingLE; infer_instance

instance : IsTotal RatingRow ratingLE :=
  ⟨by intro a b; unfold ratingLE; omega⟩

instance : IsTrans RatingRow ratingLE :=
  ⟨by intro a b c; unfold ratingLE; omega⟩

/-- Whether two `reviews_by_movie` rows share the primary key
`(movie_id, timestamp, review_id)`. -/
def sameRatingKey (a b : RatingRow) : Bool :=
  a.movie_id == b.movie_id && a.timestamp == b.timestamp &&
    a.review_id == b.review_id

/-- Effect of `INSERT INTO reviews_by_movie ...`: an upsert into the
clustering position. -/
def insertRating (r : RatingRow) (t : List RatingRow) : List RatingRow :=
  List.orderedInsert ratingLE r (t.filter fun x => !(sameRatingKey x r))

/-- Effect of `INSERT INTO movies ...`: an upsert on the `id` key. -/
def insertMovie (m : MovieRow) (t : List MovieRow) : List MovieRow :=
  (t.filter fun x => !(x.id == m.id)) ++ [m]

/-- Database state touched by variant 2: the two tables of
`cinema_ratings`. -/
structure ServerState where
  movies : List MovieRow
  reviews_by_movie : List RatingRow
deriving DecidableEq

/-- Response of `POST /api/movies`. -/
inductive MoviePostOut where
  | validationError (error : String)
  | created (id : UUID) (title : JSVal)
deriving DecidableEq

/-- HTTP status of a `POST /api/movies` response. -/
def MoviePostOut.status : MoviePostOut → Nat
  | .validationError _ => 400
  | .created _ _ => 201

/-- Response of `POST /api/movies/:movie_id/reviews`. -/
inductive RatingPostOut where
  | validationError (error : String)
  | created (movie_id : UUID) (timestamp : Nat) (review_id : UUID)
      (reviewer : JSVal) (rating : Option Int)
deriving DecidableEq

/-- HTTP status of a `POST /api/movies/:movie_id/reviews` response. -/
def RatingPostOut.status : RatingPostOut → Nat
  | .validationError _ => 400
  | .created _ _ _ _ _ => 201

/-- Handler of `GET /api/movies`: `SELECT id, title FROM movies`. -/
def getMovies (st : ServerState) : List MovieRow :=
  st.movies

/-- Handler of `POST /api/movies`: destructures `title`, rejects a
falsy value with 400, otherwise inserts `(id, title)` and returns 201. -/
def postMovies (body : Body) (freshId : UUID) (st : ServerState) :
    MoviePostOut × ServerState :=
  let title := body.get "title"
  if ¬ truthy title then
    (.validationError "O campo \"title\" é obrigatório", st)
  else
    (.created freshId title,
      { st with movies := insertMovie ⟨freshId, title⟩ st.movies })

/-- Row shape returned by `GET /api/movies/:movie_id/reviews`:
`SELECT movie_id, reviewer, rating, timestamp`. -/
structure RatingOut where
  movie_id : UUID
  reviewer : JSVal
  rating : Option Int
  timestamp : Nat
deriving DecidableEq

/-- Handler of `GET /api/movies/:movie_id/reviews`: range-scans the
partition of `movie_id` in stored clustering order. -/
def getMovieReviews (movie_id : UUID) (st : ServerState) : List RatingOut :=
  (st.reviews_by_movie.filter fun r => r.movie_id == movie_id).map
    fun r => ⟨r.movie_id, r.reviewer, r.rating, r.timestamp⟩

/-- Handler of `POST /api/movies/:movie_id/reviews`: destructures
`reviewer` and `rating`, rejects with 400 when `!reviewer || rating ===
undefined`, otherwise timestamps, generates `review_id`, computes
`parseInt(rating, 10)`, inserts the row and returns it with 201. -/
def postMovieReviews (movie_id : UUID) (body : Body) (now : Nat)
    (freshId : UUID) (st : ServerState) : RatingPostOut × ServerState :=
  let reviewer := body.get "reviewer"
  let rating := body.get "rating"
  if ¬ truthy reviewer ∨ rating = JSVal.undefined then
    (.validationError "Campos \"reviewer\" e \"rating\" são obrigatórios", st)
  else
    let ratingValue := parseIntJS rating
    let row : RatingRow := ⟨movie_id, now, freshId, reviewer, ratingValue⟩
    (.created movie_id now freshId reviewer ratingValue,
      { st with reviews_by_movie := insertRating row st.reviews_by_movie })

/-- Schema of the `movies` table created by `initializeDatabase`. -/
def moviesTable : TableSchema :=
  ⟨[("id", "uuid"), ("title", "text")], ["id"], [], []⟩

/-- Schema of the `reviews_by_movie` table created by
`initializeDatabase`. -/
def reviewsByMovieTable : TableSchema :=
  ⟨[("movie_id", "uuid"), ("timestamp", "timestamp"),
    ("review_id", "uuid"), ("reviewer", "text"), ("rating", "int")],
   ["movie_id"], ["timestamp", "review_id"], [("timestamp", true)]⟩

/-- The `initializeDatabase` function of variant 2: connect, then create
keyspace `cinema_ratings` and tables `movies`, `reviews_by_movie`,
stopping at the first engine failure. -/
def initializeDatabase (eng : Engine) (s : DBSchema) :
    Except InitError DBSchema :=
  if ¬ eng.connectOk then .error .connectFailed
  else if ¬ eng.keyspaceDdlOk then .error (.ddlFailed 1)
  else
    let s1 := createKeyspaceIfNotExists "cinema_ratings" "SimpleStrategy" 1 s
    if ¬ eng.firstTableDdlOk then .error (.ddlFailed 2)
    else
      let s2 := createTableIfNotExists "cinema_ratings" "movies" moviesTable s1
      if ¬ eng.secondTableDdlOk then .error (.ddlFailed 3)
      else .ok (createTableIfNotExists "cinema_ratings" "reviews_by_movie"
        reviewsByMovieTable s2)

/-! ## Correspondence between the two variants -/

/-- Renaming of variant-1 body/column names to variant-2 names. -/
def fieldCorr (k : String) : String :=
  if k = "name" then "title"
  else if k = "film_id" then "movie_id"
  else if k = "created_at" then "timestamp"
  else if k = "review_uuid" then "review_id"
  else if k = "username" then "reviewer"
  else if k = "score" then "rating"
  else k

/-- Renaming of variant-1 table names to variant-2 table names. -/
def tableNameCorr (k : String) : String :=
  if k = "films" then "movies"
  else if k = "movie_reviews" then "reviews_by_movie"
  else k

/-- Renaming of variant-1 keyspace names to variant-2 keyspace names. -/
def ksNameCorr (k : String) : String :=
  if k = "film_reviews_db" then "cinema_ratings"
  else k

/-- A `films` row read as a `movies` row. -/
def toMovieRow (f : FilmRow) : MovieRow := ⟨f.id, f.name⟩

/-- A `movie_reviews` row read as a `reviews_by_movie` row. -/
def toRatingRow (r : ReviewRow) : RatingRow :=
  ⟨r.film_id, r.created_at, r.review_uuid, r.username, r.score⟩

/-- A variant-1 database state read as a variant-2 state. -/
def toServerState (st : DBState) : ServerState :=
  ⟨st.films.map toMovieRow, st.movie_reviews.map toRatingRow⟩

/-- A variant-1 film-registration response read as a variant-2 movie
response (the error message is renamed along with the field name). -/
def toMoviePostOut : FilmPostOut → MoviePostOut
  | .validationError _ => .validationError "O campo \"title\" é obrigatório"
  | .created i n => .created i n

/-- A variant-1 review-post response read as a variant-2 response. -/
def toRatingPostOut : ReviewPostOut → RatingPostOut
  | .validationError _ =>
      .validationError "Campos \"reviewer\" e \"rating\" são obrigatórios"
  | .created f c r u s => .created f c r u s

/-- A variant-1 review listing row read as a variant-2 row. -/
def toRatingOut (r : ReviewOut) : RatingOut :=
  ⟨r.film_id, r.username, r.score, r.created_at⟩

/-- A variant-1 table schema under the column renaming. -/
def tableCorr (t : TableSchema) : TableSchema :=
  ⟨t.columns.map fun p => (fieldCorr p.1, p.2),
   t.partitionKey.map fieldCorr,
   t.clusteringColumns.map fieldCorr,
   t.clusteringOrder.map fun p => (fieldCorr p.1, p.2)⟩

/-- A variant-1 schema under the keyspace/table/column renamings. -/
def schemaCorr (s : DBSchema) : DBSchema :=
  ⟨s.keyspaces.map fun p =>
    (ksNameCorr p.1,
     ⟨p.2.replicationClass, p.2.replicationFactor,
      p.2.tables.map fun q => (tableNameCorr q.1, tableCorr q.2)⟩)⟩

/-! ## Auxiliary definitions used by the statements -/

/-- Sequential submission of several `POST /api/films/:film_id/reviews`
requests for one film, all timestamped `ts` (same millisecond). Each
element of `inputs` supplies the oracle `review_uuid` together with the
body fields `username` and `score`. -/
def recordMany (fid : UUID) (ts : Nat)
    (inputs : List (UUID × JSVal × JSVal)) (st : DBState) : DBState :=
  inputs.foldl
    (fun s i =>
      (postFilmReviews fid [("username", i.2.1), ("score", i.2.2)] ts i.1 s).2)
    st

/-- A concrete three-row ledger for film 1: two reviews in the same
millisecond (timestamp 10, review ids 5 and 7) and an older one. -/
def ledgerSample : DBState :=
  ⟨[],
   [⟨1, 10, 5, .str "alice", some 9⟩,
    ⟨1, 10, 7, .str "bob", some 3⟩,
    ⟨1, 3, 2, .str "carol", some 1⟩]⟩

/-- A keyspace of the given name exists in the schema. -/
def hasKeyspace (n : String) (s : DBSchema) : Prop :=
  (s.keyspaces.lookup n).isSome

/-- Every keyspace entry named `ks` contains a table named `tn`. -/
def hasTable (ks tn : String) (s : DBSchema) : Prop :=
  ∀ p ∈ s.keyspaces, p.1 = ks → (p.2.tables.lookup tn).isSome

/-! ## Helper lemmas -/

/-- Inserting a review whose primary key is fresh is a permutation of
consing it to the table. -/
theorem insertReview_perm_fresh (r : ReviewRow) (t : List ReviewRow)
    (h : ∀ x ∈ t, sameKey x r = false) :
    List.Perm (insertReview r t) (r :: t) := by
  unfold insertReview
  have hf : (t.filter fun x => !(sameKey x r)) = t := by
    rw [List.filter_eq_self]
    intro a ha
    simp [h a ha]
  rw [hf]
  exact List.perm_orderedInsert _ r t

/-- The inserted review row is present after `insertReview`. -/
theorem mem_insertReview_self (r : ReviewRow) (t : List ReviewRow) :
    r ∈ insertReview r t := by
  unfold insertReview
  have hp := List.perm_orderedInsert clusterLE r (t.filter fun x => !(sameKey x r))
  exact hp.mem_iff.mpr (List.mem_cons_self _ _)

/-- Every row present after `insertReview` is the new row or an old one. -/
theorem mem_insertReview (x r : ReviewRow) (t : List ReviewRow)
    (hx : x ∈ insertReview r t) : x = r ∨ x ∈ t := by
  unfold insertReview at hx
  have hp := List.perm_orderedInsert clusterLE r (t.filter fun x => !(sameKey x r))
  rcases List.mem_cons.mp (hp.mem_iff.mp hx) with h | h
  · exact Or.inl h
  · exact Or.inr (List.mem_of_mem_filter h)

/-- The upsert `insertReview` preserves the clustering-order invariant. -/
theorem insertReview_sorted (r : ReviewRow) (t : List ReviewRow)
    (h : List.Sorted clusterLE t) :
    List.Sorted clusterLE (insertReview r t) :=
  List.Sorted.orderedInsert r _ (List.Pairwise.filter _ h)

/-- Rows of one partition are mutually related by the clustering order
restricted to that partition: descending timestamp, ascending id. -/
theorem pairwise_partition (fid : UUID) (st : DBState)
    (h : List.Sorted clusterLE st.movie_reviews) :
    List.Pairwise
      (fun a b : ReviewRow =>
        b.created_at < a.created_at ∨
          (a.created_at = b.created_at ∧ a.review_uuid.val ≤ b.review_uuid.val))
      (st.movie_reviews.filter fun r => r.film_id == fid) := by
  have hfil : List.Pairwise clusterLE
      (st.movie_reviews.filter fun r => r.film_id == fid) :=
    List.Pairwise.filter _ h
  refine List.Pairwise.imp_of_mem ?_ hfil
  intro a b ha hb hab
  have ha1 : a.film_id = fid := by
    have := List.of_mem_filter ha
    simpa using this
  have hb1 : b.film_id = fid := by
    have := List.of_mem_filter hb
    simpa using this
  have hv : a.film_id.val = b.film_id.val := by rw [ha1, hb1]
  unfold clusterLE at hab
  omega

/-- C1: for a fixed movie id, `listReviews` returns the partition's rows
in non-increasing `created_at` order; the underlying partition rows are
totally ordered with `review_uuid` as deterministic tie-breaker among
equal timestamps; and the same query over an unchanged ledger returns
the same sequence. -/
theorem listReviews_partition_order (fid : UUID) (st : DBState)
    (h : List.Sorted clusterLE st.movie_reviews) :
    List.Pairwise (fun a b : ReviewOut => b.created_at ≤ a.created_at)
        (getFilmReviews fid st)
    ∧ List.Pairwise
        (fun a b : ReviewRow =>
          b.created_at < a.created_at ∨
            (a.created_at = b.created_at ∧ a.review_uuid.val ≤ b.review_uuid.val))
        (st.movie_reviews.filter fun r => r.film_id == fid)
    ∧ getFilmReviews fid st = getFilmReviews fid st := by
  have key := pairwise_partition fid st h
  refine ⟨?_, key, rfl⟩
  unfold getFilmReviews
  exact List.Pairwise.map _
    (fun a b hab => by
      show b.created_at ≤ a.created_at
      rcases hab with h1 | h2 <;> omega)
    key

/-- Witness for C1 at a concrete three-row ledger with a timestamp tie. -/
theorem listReviews_partition_order_witness :
    List.Pairwise (fun a b : ReviewOut => b.created_at ≤ a.created_at)
        (getFilmReviews 1 ledgerSample)
    ∧ List.Pairwise
        (fun a b : ReviewRow =>
          b.created_at < a.created_at ∨
            (a.created_at = b.created_at ∧ a.review_uuid.val ≤ b.review_uuid.val))
        (ledgerSample.movie_reviews.filter fun r => r.film_id == 1)
    ∧ getFilmReviews 1 ledgerSample = getFilmReviews 1 ledgerSample :=
  listReviews_partition_order 1 ledgerSample (by decide)

/-- Behaviour of the review-post handler on a body with exactly the
`username` and `score` fields, when both pass validation. -/
theorem postFilmReviews_mkBody (fid : UUID) (u sc : JSVal) (ts : Nat)
    (rid : UUID) (st : DBState)
    (hu : truthy u = true) (hsc : sc ≠ JSVal.undefined) :
    postFilmReviews fid [("username", u), ("score", sc)] ts rid st
      = (.created fid ts rid u (parseIntJS sc),
         { st with movie_reviews :=
             insertReview ⟨fid, ts, rid, u, parseIntJS sc⟩ st.movie_reviews }) := by
  have h1 : Body.get [("username", u), ("score", sc)] "username" = u := rfl
  have h2 : Body.get [("username", u), ("score", sc)] "score" = sc := rfl
  simp [postFilmReviews, h1, h2, hu, hsc]

/-- Inserting a row with a fresh key into the ledger grows its partition
by exactly one row. -/
theorem length_partition_insertReview (fid : UUID) (r : ReviewRow)
    (t : List ReviewRow) (hr : r.film_id = fid)
    (h : ∀ x ∈ t, sameKey x r = false) :
    ((insertReview r t).filter fun x => x.film_id == fid).length
      = (t.filter fun x => x.film_id == fid).length + 1 := by
  have hp := (insertReview_perm_fresh r t h).filter fun x => x.film_id == fid
  rw [hp.length_eq]
  simp [List.filter_cons, hr]

/-- C2: recording N reviews for one movie in the same millisecond, with
distinct server-generated review ids, yields N new rows — a subsequent
`listReviews` for that movie returns N more entries than before. -/
theorem recordReview_uniqueness (fid : UUID) (ts : Nat)
    (inputs : List (UUID × JSVal × JSVal)) (st : DBState)
    (hids : (inputs.map Prod.fst).Nodup)
    (hvalid : ∀ i ∈ inputs, truthy i.2.1 = true ∧ i.2.2 ≠ JSVal.undefined)
    (hfresh : ∀ i ∈ inputs, ∀ r ∈ st.movie_reviews,
      ¬(r.film_id = fid ∧ r.created_at = ts ∧ r.review_uuid = i.1)) :
    (getFilmReviews fid (recordMany fid ts inputs st)).length
      = inputs.length + (getFilmReviews fid st).length := by
  induction inputs generalizing st with
  | nil => simp [recordMany]
  | cons i rest ih =>
    obtain ⟨rid, u, sc⟩ := i
    have hv := hvalid _ (List.mem_cons_self _ _)
    have hstep := postFilmReviews_mkBody fid u sc ts rid st hv.1 hv.2
    have hkeys : ∀ x ∈ st.movie_reviews,
        sameKey x ⟨fid, ts, rid, u, parseIntJS sc⟩ = false := by
      intro x hx
      have hnk := hfresh _ (List.mem_cons_self _ _) x hx
      simp only [sameKey, Bool.and_eq_false_iff, beq_eq_false_iff_ne, ne_eq]
      by_contra hc
      push_neg at hc
      exact hnk ⟨hc.1.1, hc.1.2, hc.2⟩
    have hids1 : rid ∉ rest.map Prod.fst ∧ (rest.map Prod.fst).Nodup := by
      rw [List.map_cons] at hids
      exact List.nodup_cons.mp hids
    set st1 : DBState :=
      { st with movie_reviews :=
          insertReview ⟨fid, ts, rid, u, parseIntJS sc⟩ st.movie_reviews } with hst1
    have hunfold : recordMany fid ts ((rid, u, sc) :: rest) st
        = recordMany fid ts rest st1 := by
      simp only [recordMany, List.foldl_cons, hstep]
    have hrest := ih st1 hids1.2
      (fun j hj => hvalid j (List.mem_cons_of_mem _ hj))
      (by
        intro j hj r hr
        rcases mem_insertReview r _ _ hr with rfl | hmem
        · rintro ⟨-, -, h3⟩
          have hne : j.1 ≠ rid := by
            intro hja
            have hmem1 : j.1 ∈ rest.map Prod.fst := List.mem_map_of_mem _ hj
            rw [hja] at hmem1
            exact hids1.1 hmem1
          exact hne h3.symm
        · exact hfresh j (List.mem_cons_of_mem _ hj) r hmem)
    have hone : (getFilmReviews fid st1).length
        = (getFilmReviews fid st).length + 1 := by
      simp only [getFilmReviews, List.length_map, hst1]
      exact length_partition_insertReview fid _ _ rfl hkeys
    rw [hunfold, hrest, hone]
    simp [Nat.add_assoc, Nat.add_comm]

/-- Witness for C2: three same-millisecond reviews with distinct ids on
an empty ledger produce exactly three listed entries. -/
theorem recordReview_uniqueness_witness :
    (getFilmReviews 1 (recordMany 1 10
        [(5, .str "a", .num 1), (7, .str "b", .num 2), (9, .str "c", .num 3)]
        ⟨[], []⟩)).length
      = 3 + (getFilmReviews 1 (⟨[], []⟩ : DBState)).length :=
  recordReview_uniqueness 1 10
    [(5, .str "a", .num 1), (7, .str "b", .num 2), (9, .str "c", .num 3)]
    ⟨[], []⟩ (by decide) (by decide) (by decide)

/-- Applying `parseInt` to an integer-valued number gives that integer. -/
theorem parseIntJS_intCast (n : Int) : parseIntJS (.num (n : ℚ)) = some n := by
  simp [parseIntJS, ratTrunc]

/-- C3: a review post with a falsy `username` or an absent `score` is
rejected with 400 before any storage call, leaving the ledger unchanged;
a post whose `score` is any integer — including zero and negatives such
as -5 — is accepted and stored as is (no range validation). -/
theorem recordReview_validation (fid : UUID) (body : Body) (now : Nat)
    (rid : UUID) (st : DBState) :
    (truthy (body.get "username") = false →
      postFilmReviews fid body now rid st
        = (.validationError "Campos \"username\" e \"score\" são obrigatórios", st))
    ∧ (body.get "score" = JSVal.undefined →
      postFilmReviews fid body now rid st
        = (.validationError "Campos \"username\" e \"score\" são obrigatórios", st))
    ∧ (∀ n : Int, truthy (body.get "username") = true →
        body.get "score" = JSVal.num (n : ℚ) →
        postFilmReviews fid body now rid st
          = (.created fid now rid (body.get "username") (some n),
             ⟨st.films,
              insertReview ⟨fid, now, rid, body.get "username", some n⟩
                st.movie_reviews⟩)
          ∧ (ReviewPostOut.created fid now rid (body.get "username")
              (some n)).status = 201) := by
  refine ⟨?_, ?_, ?_⟩
  · intro h
    simp [postFilmReviews, h]
  · intro h
    simp [postFilmReviews, h]
  · intro n h1 h2
    refine ⟨?_, rfl⟩
    simp [postFilmReviews, h1, h2, parseIntJS_intCast]

/-- Witness for C3: missing `username`, missing `score`, and an accepted
`score` of -5, each at a concrete request. -/
theorem recordReview_validation_witness :
    (postFilmReviews 1 [("score", JSVal.num 5)] 10 2 ⟨[], []⟩
      = (.validationError "Campos \"username\" e \"score\" são obrigatórios",
         (⟨[], []⟩ : DBState)))
    ∧ (postFilmReviews 1 [("username", JSVal.str "alice")] 10 2 ⟨[], []⟩
      = (.validationError "Campos \"username\" e \"score\" são obrigatórios",
         (⟨[], []⟩ : DBState)))
    ∧ (postFilmReviews 1 [("username", JSVal.str "alice"),
          ("score", JSVal.num (-5))] 10 2 ⟨[], []⟩
        = (.created 1 10 2 (JSVal.str "alice") (some (-5)),
           ⟨[], [⟨1, 10, 2, JSVal.str "alice", some (-5)⟩]⟩)
      ∧ (ReviewPostOut.created 1 10 2 (JSVal.str "alice")
          (some (-5))).status = 201) :=
  ⟨(recordReview_validation 1 [("score", JSVal.num 5)] 10 2 ⟨[], []⟩).1
      (by decide),
   (recordReview_validation 1 [("username", JSVal.str "alice")] 10 2
      ⟨[], []⟩).2.1 (by decide),
   (recordReview_validation 1 [("username", JSVal.str "alice"),
      ("score", JSVal.num (-5))] 10 2 ⟨[], []⟩).2.2 (-5)
      (by decide) (by decide)⟩

/-- C4: registering a film with an empty or absent `name` fails with 400
and persists nothing; with a non-empty name it persists the pair of the
server-generated id and the name, and returns exactly that pair with
status 201. -/
theorem registerMovie_behavior (body : Body) (rid : UUID) (st : DBState) :
    (body.get "name" = JSVal.undefined →
      postFilms body rid st
        = (.validationError "O campo \"name\" é obrigatório", st))
    ∧ (body.get "name" = JSVal.str "" →
      postFilms body rid st
        = (.validationError "O campo \"name\" é obrigatório", st))
    ∧ (∀ s : String, s ≠ "" → body.get "name" = JSVal.str s →
        (∀ f ∈ st.films, f.id ≠ rid) →
        postFilms body rid st
          = (.created rid (JSVal.str s),
             ⟨st.films ++ [⟨rid, JSVal.str s⟩], st.movie_reviews⟩)
        ∧ (FilmPostOut.created rid (JSVal.str s)).status = 201) := by
  refine ⟨?_, ?_, ?_⟩
  · intro h
    simp [postFilms, h, truthy]
  · intro h
    simp [postFilms, h, truthy]
  · intro s hs h hfree
    refine ⟨?_, rfl⟩
    have hfilt : (st.films.filter fun x => !(x.id == rid)) = st.films := by
      rw [List.filter_eq_self]
      intro a ha
      simp [hfree a ha]
    simp [postFilms, h, truthy, hs, insertFilm, hfilt]

/-- Witness for C4: rejection of an empty and an absent name, and a
successful registration, each at a concrete request. -/
theorem registerMovie_behavior_witness :
    (postFilms [] 4 ⟨[], []⟩
      = (.validationError "O campo \"name\" é obrigatório",
         (⟨[], []⟩ : DBState)))
    ∧ (postFilms [("name", JSVal.str "")] 4 ⟨[], []⟩
      = (.validationError "O campo \"name\" é obrigatório",
         (⟨[], []⟩ : DBState)))
    ∧ (postFilms [("name", JSVal.str "Arrival")] 4 ⟨[], []⟩
        = (.created 4 (JSVal.str "Arrival"),
           ⟨[⟨4, JSVal.str "Arrival"⟩], []⟩)
      ∧ (FilmPostOut.created 4 (JSVal.str "Arrival")).status = 201) :=
  ⟨(registerMovie_behavior [] 4 ⟨[], []⟩).1 (by decide),
   (registerMovie_behavior [("name", JSVal.str "")] 4 ⟨[], []⟩).2.1
      (by decide),
   (registerMovie_behavior [("name", JSVal.str "Arrival")] 4 ⟨[], []⟩).2.2
      "Arrival" (by decide) (by decide) (by decide)⟩

/-- C5: recording a review for a movie id that was never registered in
the catalog succeeds with 201, and the review is afterwards returned by
`listReviews` for that id — no referential integrity is enforced. -/
theorem orphan_tolerance (fid : UUID) (body : Body) (now : Nat) (rid : UUID)
    (st : DBState)
    (_hnoreg : ∀ m ∈ st.films, m.id ≠ fid)
    (hu : truthy (body.get "username") = true)
    (hs : body.get "score" ≠ JSVal.undefined) :
    ((postFilmReviews fid body now rid st).1).status = 201
    ∧ (⟨fid, body.get "username", parseIntJS (body.get "score"), now⟩ : ReviewOut)
        ∈ getFilmReviews fid (postFilmReviews fid body now rid st).2 := by
  have hpost : postFilmReviews fid body now rid st
      = (.created fid now rid (body.get "username")
           (parseIntJS (body.get "score")),
         { st with movie_reviews :=
             insertReview ⟨fid, now, rid, body.get "username",
               parseIntJS (body.get "score")⟩ st.movie_reviews }) := by
    simp [postFilmReviews, hu, hs]
  rw [hpost]
  refine ⟨rfl, ?_⟩
  unfold getFilmReviews
  exact List.mem_map_of_mem _
    (List.mem_filter.mpr ⟨mem_insertReview_self _ _, by simp⟩)

/-- Witness for C5: film 3 is absent from a catalog holding only film 1,
yet a review for film 3 is accepted and listed. -/
theorem orphan_tolerance_witness :
    ((postFilmReviews 3 [("username", JSVal.str "alice"),
        ("score", JSVal.num 9)] 10 2 ⟨[⟨1, JSVal.str "Arrival"⟩], []⟩).1).status
      = 201
    ∧ (⟨3, JSVal.str "alice", some 9, 10⟩ : ReviewOut)
        ∈ getFilmReviews 3 (postFilmReviews 3 [("username", JSVal.str "alice"),
            ("score", JSVal.num 9)] 10 2 ⟨[⟨1, JSVal.str "Arrival"⟩], []⟩).2 :=
  orphan_tolerance 3 [("username", JSVal.str "alice"), ("score", JSVal.num 9)]
    10 2 ⟨[⟨1, JSVal.str "Arrival"⟩], []⟩ (by decide) (by decide) (by decide)

/-- After `CREATE KEYSPACE IF NOT EXISTS`, the keyspace exists. -/
theorem hasKeyspace_createKeyspace (n cls : String) (rf : Nat) (s : DBSchema) :
    hasKeyspace n (createKeyspaceIfNotExists n cls rf s) := by
  unfold hasKeyspace createKeyspaceIfNotExists
  by_cases h : (s.keyspaces.lookup n).isSome
  · simp [h]
  · simp [h, List.lookup]

/-- Running `CREATE KEYSPACE IF NOT EXISTS` is a no-op on an existing
keyspace. -/
theorem createKeyspace_of_has (n cls : String) (rf : Nat) (s : DBSchema)
    (h : hasKeyspace n s) : createKeyspaceIfNotExists n cls rf s = s := by
  unfold hasKeyspace at h
  simp [createKeyspaceIfNotExists, h]

/-- Looking up a key is unaffected by mapping a function that preserves
every entry's key. -/
theorem lookup_isSome_map (f : String × KeyspaceSchema → String × KeyspaceSchema)
    (hf : ∀ p, (f p).1 = p.1)
    (l : List (String × KeyspaceSchema)) (n : String) :
    ((l.map f).lookup n).isSome = (l.lookup n).isSome := by
  induction l with
  | nil => rfl
  | cons a l ih =>
    obtain ⟨k, v⟩ := a
    have hfa : f (k, v) = (k, (f (k, v)).2) := by
      conv_lhs => rw [← Prod.mk.eta (p := f (k, v))]
      rw [hf (k, v)]
    rw [List.map_cons, hfa]
    by_cases hn : n == k
    · simp [List.lookup, hn]
    · simp [List.lookup, hn, ih]

/-- Running `CREATE TABLE IF NOT EXISTS` never removes a keyspace. -/
theorem hasKeyspace_createTable (n ks tn : String) (t : TableSchema)
    (s : DBSchema) (h : hasKeyspace n s) :
    hasKeyspace n (createTableIfNotExists ks tn t s) := by
  unfold hasKeyspace at h
  unfold hasKeyspace createTableIfNotExists
  obtain ⟨l⟩ := s
  have hf : ∀ p : String × KeyspaceSchema,
      ((if p.1 = ks then
          (p.1, if (p.2.tables.lookup tn).isSome then p.2
                else { p.2 with tables := (tn, t) :: p.2.tables })
        else p)).1 = p.1 := by
    intro p
    by_cases hk : p.1 = ks
    · rw [if_pos hk]
    · rw [if_neg hk]
  show ((l.map _).lookup n).isSome = true
  rw [lookup_isSome_map _ hf]
  exact h

/-- After `CREATE TABLE IF NOT EXISTS`, every keyspace entry of that
name has the table. -/
theorem hasTable_createTable_self (ks tn : String) (t : TableSchema)
    (s : DBSchema) : hasTable ks tn (createTableIfNotExists ks tn t s) := by
  unfold hasTable createTableIfNotExists
  intro p hp h1
  simp only [List.mem_map] at hp
  obtain ⟨q, hq, rfl⟩ := hp
  by_cases hk : q.1 = ks
  · rw [if_pos hk]
    show (((if (q.2.tables.lookup tn).isSome then q.2
      else { q.2 with tables := (tn, t) :: q.2.tables })).tables.lookup
        tn).isSome = true
    by_cases ht : (q.2.tables.lookup tn).isSome
    · rw [if_pos ht]
      exact ht
    · rw [if_neg ht]
      simp [List.lookup]
  · rw [if_neg hk] at h1
    exact absurd h1 hk

/-- Running `CREATE TABLE IF NOT EXISTS` never removes a table. -/
theorem hasTable_mono_createTable (ks tn ks1 tn1 : String) (t1 : TableSchema)
    (s : DBSchema) (h : hasTable ks tn s) :
    hasTable ks tn (createTableIfNotExists ks1 tn1 t1 s) := by
  unfold hasTable at h
  unfold hasTable createTableIfNotExists
  intro p hp h1
  simp only [List.mem_map] at hp
  obtain ⟨q, hq, rfl⟩ := hp
  by_cases hk : q.1 = ks1
  · rw [if_pos hk] at h1 ⊢
    have hq2 := h q hq h1
    show (((if (q.2.tables.lookup tn1).isSome then q.2
      else { q.2 with tables := (tn1, t1) :: q.2.tables })).tables.lookup
        tn).isSome = true
    by_cases ht : (q.2.tables.lookup tn1).isSome
    · rw [if_pos ht]
      exact hq2
    · rw [if_neg ht]
      by_cases he : tn == tn1
      · simp [List.lookup, he]
      · simp [List.lookup, he, hq2]
  · rw [if_neg hk] at h1 ⊢
    exact h q hq h1

/-- Running `CREATE TABLE IF NOT EXISTS` is a no-op when every keyspace entry of
that name already has the table. -/
theorem createTable_of_has (ks tn : String) (t : TableSchema) (s : DBSchema)
    (h : hasTable ks tn s) : createTableIfNotExists ks tn t s = s := by
  unfold hasTable at h
  unfold createTableIfNotExists
  obtain ⟨l⟩ := s
  simp only [DBSchema.mk.injEq]
  have hid : ∀ p ∈ l,
      (if p.1 = ks then
        (p.1, if (p.2.tables.lookup tn).isSome then p.2
              else { p.2 with tables := (tn, t) :: p.2.tables })
      else p) = p := by
    intro p hp
    by_cases hk : p.1 = ks
    · rw [if_pos hk, if_pos (h p hp hk)]
    · rw [if_neg hk]
  calc l.map _ = l.map id := List.map_congr_left hid
  _ = l := List.map_id l

/-- The pure effect of a successful bootstrap is idempotent. -/
theorem setupPure_idem (s : DBSchema) : setupPure (setupPure s) = setupPure s := by
  have hks : hasKeyspace "film_reviews_db" (setupPure s) := by
    unfold setupPure
    exact hasKeyspace_createTable _ _ _ _ _
      (hasKeyspace_createTable _ _ _ _ _
        (hasKeyspace_createKeyspace _ _ _ _))
  have hfilms : hasTable "film_reviews_db" "films" (setupPure s) := by
    unfold setupPure
    exact hasTable_mono_createTable _ _ _ _ _ _
      (hasTable_createTable_self _ _ _ _)
  have hmr : hasTable "film_reviews_db" "movie_reviews" (setupPure s) := by
    unfold setupPure
    exact hasTable_createTable_self _ _ _ _
  conv_lhs => rw [setupPure]
  rw [createKeyspace_of_has _ _ _ _ hks,
    createTable_of_has _ _ _ _ hfilms,
    createTable_of_has _ _ _ _ hmr]

/-- C6: with a healthy engine, running `setupDatabase` twice in sequence
succeeds both times and the second run returns the schema unchanged from
the first, from any starting schema state. -/
theorem bootstrap_idempotent (s : DBSchema) :
    setupDatabase Engine.allOk s = .ok (setupPure s)
    ∧ setupDatabase Engine.allOk (setupPure s) = .ok (setupPure s) := by
  constructor
  · rfl
  · have h1 : setupDatabase Engine.allOk (setupPure s)
        = .ok (setupPure (setupPure s)) := rfl
    rw [h1, setupPure_idem]

/-- C7: whenever any bootstrap step fails the process exits with the
non-zero status 1 and never serves; serving can only be reached with the
schema produced by a fully successful `setupDatabase`. -/
theorem bootstrap_fatal (eng : Engine) (s : DBSchema) :
    ((∃ e, setupDatabase eng s = .error e) →
      startProcess eng s = .exited 1 ∧ (1 : Nat) ≠ 0)
    ∧ (∀ s1, startProcess eng s = .serving s1 →
        setupDatabase eng s = .ok s1) := by
  constructor
  · rintro ⟨e, he⟩
    unfold startProcess
    rw [he]
    exact ⟨rfl, by decide⟩
  · intro s1 h
    unfold startProcess at h
    cases hset : setupDatabase eng s with
    | ok s2 =>
      rw [hset] at h
      cases h
      rfl
    | error e =>
      rw [hset] at h
      cases h

/-- Witness for C7: a failed connection exits with status 1, and with a
healthy engine the served schema is the bootstrap's result. -/
theorem bootstrap_fatal_witness :
    (startProcess ⟨false, true, true, true⟩ DBSchema.empty = .exited 1
      ∧ (1 : Nat) ≠ 0)
    ∧ setupDatabase Engine.allOk DBSchema.empty
        = .ok (setupPure DBSchema.empty) :=
  ⟨(bootstrap_fatal ⟨false, true, true, true⟩ DBSchema.empty).1
      ⟨.connectFailed, rfl⟩,
   (bootstrap_fatal Engine.allOk DBSchema.empty).2 (setupPure DBSchema.empty)
      rfl⟩

/-- C8: the handler reads only `username` and `score` from the body, so
two requests agreeing on those fields — whatever else the bodies carry,
including client-supplied `created_at` or `review_uuid` fields — produce
identical responses and identical stored state; and on the accepted path
the response's `created_at` and `review_uuid` are exactly the server
oracles `now` and `rid`, never body data. -/
theorem server_assigned_fields (fid : UUID) (b1 b2 : Body) (now : Nat)
    (rid : UUID) (st : DBState)
    (hu : b1.get "username" = b2.get "username")
    (hs : b1.get "score" = b2.get "score") :
    postFilmReviews fid b1 now rid st = postFilmReviews fid b2 now rid st
    ∧ (truthy (b1.get "username") = true → b1.get "score" ≠ JSVal.undefined →
        (postFilmReviews fid b1 now rid st).1
          = .created fid now rid (b1.get "username")
              (parseIntJS (b1.get "score"))) := by
  constructor
  · unfold postFilmReviews
    rw [hu, hs]
  · intro h1 h2
    simp [postFilmReviews, h1, h2]

/-- Witness for C8: a body smuggling `created_at` and `review_uuid`
fields behaves exactly like the plain body, and the response carries the
server's clock and id. -/
theorem server_assigned_fields_witness :
    (postFilmReviews 1 [("username", JSVal.str "alice"), ("score", JSVal.num 9),
        ("created_at", JSVal.num 999), ("review_uuid", JSVal.num 888)] 10 2
        ⟨[], []⟩
      = postFilmReviews 1 [("username", JSVal.str "alice"),
          ("score", JSVal.num 9)] 10 2 ⟨[], []⟩)
    ∧ ((postFilmReviews 1 [("username", JSVal.str "alice"),
          ("score", JSVal.num 9), ("created_at", JSVal.num 999),
          ("review_uuid", JSVal.num 888)] 10 2 ⟨[], []⟩).1
        = .created 1 10 2 (JSVal.str "alice") (some 9)) :=
  ⟨(server_assigned_fields 1 _ _ 10 2 ⟨[], []⟩ (by decide) (by decide)).1,
   (server_assigned_fields 1
      [("username", JSVal.str "alice"), ("score", JSVal.num 9),
       ("created_at", JSVal.num 999), ("review_uuid", JSVal.num 888)]
      [("username", JSVal.str "alice"), ("score", JSVal.num 9)] 10 2 ⟨[], []⟩
      (by decide) (by decide)).2 (by decide) (by decide)⟩

/-- C9: the presence check on `score` rejects only `undefined`; `null`
and arbitrary strings pass validation, and the stored and returned
rating is `parseInt(score, 10)` — truncating numbers and numeric
strings, and yielding NaN (not a validation error) on non-numeric
input such as `null` or `"abc"`. -/
theorem rating_parseInt_semantics (fid : UUID) (body : Body) (now : Nat)
    (rid : UUID) (st : DBState)
    (hu : truthy (body.get "username") = true) :
    (body.get "score" ≠ JSVal.undefined →
      postFilmReviews fid body now rid st
        = (.created fid now rid (body.get "username")
             (parseIntJS (body.get "score")),
           ⟨st.films,
            insertReview ⟨fid, now, rid, body.get "username",
              parseIntJS (body.get "score")⟩ st.movie_reviews⟩))
    ∧ parseIntJS JSVal.null = none
    ∧ (∀ q : ℚ, parseIntJS (.num q) = some (ratTrunc q))
    ∧ ratTrunc (5 / 2 : ℚ) = 2
    ∧ ratTrunc (-5 / 2 : ℚ) = -2
    ∧ parseIntJS (.str "abc") = none
    ∧ parseIntJS (.str "7") = some 7 := by
  refine ⟨?_, by decide, fun q => rfl, ?_, ?_, by decide, by decide⟩
  · intro h
    simp [postFilmReviews, hu, h]
  · rw [(by norm_num [mkRat, Rat.normalize] : (5 / 2 : ℚ) = mkRat 5 2)]
    decide
  · rw [show ((-5 : ℚ)) = -(5 : ℚ) by norm_num, neg_div]
    rw [(by norm_num [mkRat, Rat.normalize] : (5 / 2 : ℚ) = mkRat 5 2)]
    decide

/-- Witness for C9: a `null` rating passes validation and is stored as
NaN at a concrete request. -/
theorem rating_parseInt_semantics_witness :
    (postFilmReviews 1 [("username", JSVal.str "alice"),
        ("score", JSVal.null)] 10 2 ⟨[], []⟩
      = (.created 1 10 2 (JSVal.str "alice") none,
         ⟨[], [⟨1, 10, 2, JSVal.str "alice", none⟩]⟩))
    ∧ parseIntJS JSVal.null = none
    ∧ ratTrunc (5 / 2 : ℚ) = 2
    ∧ ratTrunc (-5 / 2 : ℚ) = -2
    ∧ parseIntJS (.str "abc") = none
    ∧ parseIntJS (.str "7") = some 7 :=
  have h := rating_parseInt_semantics 1
    [("username", JSVal.str "alice"), ("score", JSVal.null)] 10 2 ⟨[], []⟩
    (by decide)
  ⟨h.1 (by decide), h.2.1, h.2.2.2.1, h.2.2.2.2.1, h.2.2.2.2.2.1,
   h.2.2.2.2.2.2⟩

/-- Ordered insertion commutes with reading variant-1 review rows as
variant-2 rows, since the two clustering orders agree under the field
correspondence. -/
theorem orderedInsert_map_toRatingRow (r : ReviewRow) (l : List ReviewRow) :
    List.orderedInsert ratingLE (toRatingRow r) (l.map toRatingRow)
      = (List.orderedInsert clusterLE r l).map toRatingRow := by
  induction l with
  | nil => rfl
  | cons a l ih =>
    simp only [List.map_cons, List.orderedInsert]
    by_cases h : clusterLE r a
    · have h2 : ratingLE (toRatingRow r) (toRatingRow a) := h
      rw [if_pos h, if_pos h2, List.map_cons]
      rfl
    · have h2 : ¬ ratingLE (toRatingRow r) (toRatingRow a) := h
      rw [if_neg h, if_neg h2, List.map_cons, ih]

/-- The upsert into `reviews_by_movie` matches the upsert into
`movie_reviews` under the row correspondence. -/
theorem insertRating_map (r : ReviewRow) (l : List ReviewRow) :
    insertRating (toRatingRow r) (l.map toRatingRow)
      = (insertReview r l).map toRatingRow := by
  unfold insertRating insertReview
  have hfil : ((l.map toRatingRow).filter
        fun x => !(sameRatingKey x (toRatingRow r)))
      = (l.filter fun x => !(sameKey x r)).map toRatingRow :=
    List.filter_map toRatingRow l
  rw [hfil, orderedInsert_map_toRatingRow]

/-- The upsert into `movies` matches the upsert into `films` under the
row correspondence. -/
theorem insertMovie_map (f : FilmRow) (l : List FilmRow) :
    insertMovie (toMovieRow f) (l.map toMovieRow)
      = (insertFilm f l).map toMovieRow := by
  unfold insertMovie insertFilm
  have hfil : ((l.map toMovieRow).filter
        fun x => !(x.id == (toMovieRow f).id))
      = (l.filter fun x => !(x.id == f.id)).map toMovieRow :=
    List.filter_map toMovieRow l
  rw [hfil, List.map_append]
  rfl

/-- Movie registration in variant 2 mirrors film registration in
variant 1 when the renamed body field agrees. -/
theorem postMovies_corr (b1 b2 : Body) (rid : UUID) (st : DBState)
    (h : b2.get "title" = b1.get "name") :
    postMovies b2 rid (toServerState st)
      = (toMoviePostOut (postFilms b1 rid st).1,
         toServerState (postFilms b1 rid st).2) := by
  unfold postMovies postFilms
  rw [h]
  by_cases ht : truthy (b1.get "name")
  · rw [if_neg (not_not_intro ht), if_neg (not_not_intro ht)]
    refine Prod.ext rfl ?_
    show ServerState.mk
        (insertMovie (toMovieRow ⟨rid, b1.get "name"⟩)
          (st.films.map toMovieRow))
        (st.movie_reviews.map toRatingRow) = _
    rw [insertMovie_map]
    rfl
  · rw [if_pos ht, if_pos ht]
    rfl

/-- Review listing in variant 2 mirrors variant 1's listing. -/
theorem getMovieReviews_corr (fid : UUID) (st : DBState) :
    getMovieReviews fid (toServerState st)
      = (getFilmReviews fid st).map toRatingOut := by
  unfold getMovieReviews getFilmReviews toServerState
  rw [List.filter_map toRatingRow, List.map_map, List.map_map]
  rfl

/-- Review posting in variant 2 mirrors variant 1's posting when the
renamed body fields agree. -/
theorem postMovieReviews_corr (fid : UUID) (b1 b2 : Body) (now : Nat)
    (rid : UUID) (st : DBState)
    (hr : b2.get "reviewer" = b1.get "username")
    (hs : b2.get "rating" = b1.get "score") :
    postMovieReviews fid b2 now rid (toServerState st)
      = (toRatingPostOut (postFilmReviews fid b1 now rid st).1,
         toServerState (postFilmReviews fid b1 now rid st).2) := by
  unfold postMovieReviews postFilmReviews
  rw [hr, hs]
  by_cases hv : ¬ truthy (b1.get "username") ∨ b1.get "score" = JSVal.undefined
  · rw [if_pos hv, if_pos hv]
    rfl
  · rw [if_neg hv, if_neg hv]
    refine Prod.ext rfl ?_
    show ServerState.mk (st.films.map toMovieRow)
        (insertRating
          (toRatingRow ⟨fid, now, rid, b1.get "username",
            parseIntJS (b1.get "score")⟩)
          (st.movie_reviews.map toRatingRow)) = _
    rw [insertRating_map]
    rfl

/-- Variant 2's bootstrap produces variant 1's bootstrap result under
the keyspace/table/column renaming, step for step, for every engine
failure pattern. -/
theorem initialize_corr (eng : Engine) :
    initializeDatabase eng DBSchema.empty
      = (setupDatabase eng DBSchema.empty).map schemaCorr := by
  obtain ⟨c, k, f, sd⟩ := eng
  cases c <;> cases k <;> cases f <;> cases sd <;> rfl

/-- C10: the two server variants in the source file are behaviourally
equivalent up to the consistent renaming films/name/film_reviews_db to
movies/title/cinema_ratings: each handler returns the renamed response
and the renamed stored state, statuses coincide, and the bootstraps
produce renamed-identical schemas. -/
theorem variants_equivalent (fid : UUID) (b1 b2 bm1 bm2 : Body) (now : Nat)
    (rid : UUID) (st : DBState) (eng : Engine) :
    getMovies (toServerState st) = (getFilms st).map toMovieRow
    ∧ (bm2.get "title" = bm1.get "name" →
        postMovies bm2 rid (toServerState st)
          = (toMoviePostOut (postFilms bm1 rid st).1,
             toServerState (postFilms bm1 rid st).2))
    ∧ getMovieReviews fid (toServerState st)
        = (getFilmReviews fid st).map toRatingOut
    ∧ (b2.get "reviewer" = b1.get "username" →
       b2.get "rating" = b1.get "score" →
        postMovieReviews fid b2 now rid (toServerState st)
          = (toRatingPostOut (postFilmReviews fid b1 now rid st).1,
             toServerState (postFilmReviews fid b1 now rid st).2))
    ∧ (∀ o : FilmPostOut, (toMoviePostOut o).status = o.status)
    ∧ (∀ o : ReviewPostOut, (toRatingPostOut o).status = o.status)
    ∧ initializeDatabase eng DBSchema.empty
        = (setupDatabase eng DBSchema.empty).map schemaCorr :=
  ⟨rfl,
   fun h => postMovies_corr bm1 bm2 rid st h,
   getMovieReviews_corr fid st,
   fun h1 h2 => postMovieReviews_corr fid b1 b2 now rid st h1 h2,
   fun o => by cases o <;> rfl,
   fun o => by cases o <;> rfl,
   initialize_corr eng⟩

/-- Witness for C10: the renamed registration and review-post requests
behave identically at concrete inputs. -/
theorem variants_equivalent_witness :
    postMovies [("title", JSVal.str "Arrival")] 4 (toServerState ⟨[], []⟩)
      = (toMoviePostOut
           (postFilms [("name", JSVal.str "Arrival")] 4 ⟨[], []⟩).1,
         toServerState
           (postFilms [("name", JSVal.str "Arrival")] 4 ⟨[], []⟩).2)
    ∧ postMovieReviews 1
        [("reviewer", JSVal.str "alice"), ("rating", JSVal.num 9)] 10 2
        (toServerState ⟨[], []⟩)
      = (toRatingPostOut
           (postFilmReviews 1 [("username", JSVal.str "alice"),
             ("score", JSVal.num 9)] 10 2 ⟨[], []⟩).1,
         toServerState
           (postFilmReviews 1 [("username", JSVal.str "alice"),
             ("score", JSVal.num 9)] 10 2 ⟨[], []⟩).2) :=
  ⟨(variants_equivalent 1 [] [] [("name", JSVal.str "Arrival")]
      [("title", JSVal.str "Arrival")] 10 4 ⟨[], []⟩ Engine.allOk).2.1
      (by decide),
   (variants_equivalent 1
      [("username", JSVal.str "alice"), ("score", JSVal.num 9)]
      [("reviewer", JSVal.str "alice"), ("rating", JSVal.num 9)] [] [] 10 2
      ⟨[], []⟩ Engine.allOk).2.2.2.1 (by decide) (by decide)⟩

end MovieReview
